import Mathlib

/-!
Verification of the smart-attendance core (src/main.py): geofenced
redemption logic, token codec, token store and the redemption flow of
`student_app`.  Python floats are modelled as real numbers, timestamps
(ISO-8601 strings in the source) as integers (epoch seconds), and the
SQLite tables as Lean lists of structures mirroring the schema of
`init_database`.
-/

open Real

namespace SmartAttendance

/-- Python `math.radians`: degrees to radians, `d * pi / 180`. -/
noncomputable def radians (d : ℝ) : ℝ := d * Real.pi / 180

/-- Python `math.atan2 y x`: the angle of the point `(x, y)`, in
`(-pi, pi]`, extended with `atan2 0 0 = 0` as in CPython (for unsigned
real zero). -/
noncomputable def atan2 (y x : ℝ) : ℝ :=
  if 0 < x then Real.arctan (y / x)
  else if x < 0 then
    (if 0 ≤ y then Real.arctan (y / x) + Real.pi
     else Real.arctan (y / x) - Real.pi)
  else
    (if 0 < y then Real.pi / 2
     else if y < 0 then -(Real.pi / 2)
     else 0)

/-- Source function `calculate_distance` (src/main.py lines 185-196): haversine distance
in meters between two GPS coordinates given in degrees. -/
noncomputable def calculate_distance (lat1 lon1 lat2 lon2 : ℝ) : ℝ :=
  let R : ℝ := 6371000
  let phi1 := radians lat1
  let phi2 := radians lat2
  let delta_phi := radians (lat2 - lat1)
  let delta_lambda := radians (lon2 - lon1)
  let a := Real.sin (delta_phi / 2) ^ 2 +
    Real.cos phi1 * Real.cos phi2 * Real.sin (delta_lambda / 2) ^ 2
  let c := 2 * atan2 (Real.sqrt a) (Real.sqrt (1 - a))
  R * c

/-- The haversine contract as the spec words it: great-circle
distance by the haversine formula with Earth radius 6,371,000 meters,
inputs in degrees converted to radians (`d = 2 R arcsin (sqrt h)` with
`h` the haversine of the central angle). -/
noncomputable def haversineSpec (lat1 lon1 lat2 lon2 : ℝ) : ℝ :=
  let R : ℝ := 6371000
  let h := Real.sin (radians (lat2 - lat1) / 2) ^ 2 +
    Real.cos (radians lat1) * Real.cos (radians lat2) *
      Real.sin (radians (lon2 - lon1) / 2) ^ 2
  2 * R * Real.arcsin (Real.sqrt h)

/-- The haversine value `a` computed inside `calculate_distance`. -/
noncomputable def haversineTerm (lat1 lon1 lat2 lon2 : ℝ) : ℝ :=
  Real.sin (radians (lat2 - lat1) / 2) ^ 2 +
    Real.cos (radians lat1) * Real.cos (radians lat2) *
      Real.sin (radians (lon2 - lon1) / 2) ^ 2

/-! ## Token codec (generate_qr_code / read_qr_code)

The QR payload is `json.dumps` of the dict built in the faculty app
(src/main.py lines 766-773) and is parsed back with `json.loads` inside
`read_qr_code` (lines 213-233).  JSON values are modelled structurally;
the ISO-8601 `created_at` / `expires_at` strings are abstracted as
integer timestamps (`datetime.isoformat` / `fromisoformat` round-trip
exactly), and JSON numbers as reals. -/

inductive JValue where
  | jstr (s : String) : JValue
  | jnum (x : ℝ) : JValue
  | jtime (t : Int) : JValue
  | jobj (fields : List (String × JValue)) : JValue

/-- The token wire format: the seven fields serialized into the QR
payload (src/main.py lines 766-773). -/
structure QRPayload where
  qr_id : String
  subject : String
  period : String
  latitude : ℝ
  longitude : ℝ
  created_at : Int
  expires_at : Int

/-- Payload construction of `generate_qr_code`: the `qr_data` dict of
lines 766-773 serialized by `json.dumps` (line 200). -/
def encodePayload (t : QRPayload) : JValue :=
  .jobj [("qr_id", .jstr t.qr_id), ("subject", .jstr t.subject),
    ("period", .jstr t.period), ("latitude", .jnum t.latitude),
    ("longitude", .jnum t.longitude), ("created_at", .jtime t.created_at),
    ("expires_at", .jtime t.expires_at)]

def getStr (v : JValue) (k : String) : Option String :=
  match v with
  | .jobj fs =>
    match fs.lookup k with
    | some (.jstr s) => some s
    | _ => none
  | _ => none

def getNum (v : JValue) (k : String) : Option ℝ :=
  match v with
  | .jobj fs =>
    match fs.lookup k with
    | some (.jnum x) => some x
    | _ => none
  | _ => none

def getTime (v : JValue) (k : String) : Option Int :=
  match v with
  | .jobj fs =>
    match fs.lookup k with
    | some (.jtime t) => some t
    | _ => none
  | _ => none

/-- Extraction of the token fields from a decoded payload, as the
redemption flow reads them (the `qr_data` subscripts for each field and
`datetime.fromisoformat` on the expiry); `none` when a
field is missing or of the wrong shape. -/
def decodePayload (v : JValue) : Option QRPayload :=
  match getStr v "qr_id", getStr v "subject", getStr v "period",
      getNum v "latitude", getNum v "longitude",
      getTime v "created_at", getTime v "expires_at" with
  | some i, some s, some p, some la, some lo, some c, some e =>
    some ⟨i, s, p, la, lo, c, e⟩
  | _, _, _, _, _, _, _ => none

/-- Result of `cv2.QRCodeDetector().detectAndDecode` plus `json.loads`,
as consumed by `read_qr_code` (lines 215-229): whether an exception
escaped the OpenCV calls, whether `vertices_array` is not None, whether
`len(data) > 0`, and the outcome of `json.loads(data)` (`none` models
`json.JSONDecodeError`). -/
structure DetectorOutput where
  threw : Bool
  vertices : Bool
  dataNonempty : Bool
  parsed : Option JValue

/-- Source function `read_qr_code` (src/main.py lines 213-233): returns the parsed JSON
payload, or `none` when no code is found, the data is empty, the payload
is not valid JSON, or an exception was raised. -/
def read_qr_code (o : DetectorOutput) : Option JValue :=
  if o.threw then none
  else if o.vertices && o.dataNonempty then o.parsed
  else none

/-! ## Data model (init_database) and token store -/

/-- A row of the `qr_codes` table (src/main.py lines 56-69). -/
structure QRRow where
  qr_id : String
  subject : String
  period : String
  latitude : ℝ
  longitude : ℝ
  created_at : Int
  expires_at : Int
  created_by : String
  is_active : Bool

/-- A row of the `attendance` table (src/main.py lines 34-53).  The
table has a single AUTOINCREMENT primary key and no other uniqueness
constraint, so inserts always succeed; rows are modelled positionally in
a list. -/
structure AttendanceRecord where
  student_name : String
  student_roll : String
  subject : String
  period : String
  timestamp : Int
  device_id : String
  student_latitude : ℝ
  student_longitude : ℝ
  qr_latitude : ℝ
  qr_longitude : ℝ
  status : String
  marked_by : String
  modified_by : Option String
  modification_reason : Option String

/-- SQLite `DATE(timestamp)`: the calendar date of a timestamp,
abstracted as the day number of the epoch-second timestamp. -/
def dateOf (t : Int) : Int := t / 86400

/-- Python `str.strip()`: removes leading and trailing whitespace. -/
def pyStrip (s : String) : String :=
  ⟨((s.data.dropWhile Char.isWhitespace).reverse.dropWhile Char.isWhitespace).reverse⟩

/-- The store liveness query
`SELECT * FROM qr_codes WHERE qr_id = ? AND is_active = 1` followed by
`fetchone()` (src/main.py lines 1146-1152). -/
def isActive (store : List QRRow) (qr_id : String) : Option QRRow :=
  store.find? (fun r => r.qr_id == qr_id && r.is_active)

/-- The duplicate pre-check
`SELECT COUNT(*) FROM attendance WHERE student_name = ? AND subject = ?
AND period = ? AND DATE(timestamp) = ?` (src/main.py lines 1172-1179);
it filters on no other column (in particular not on `marked_by` or
`status`). -/
def dupCount (records : List AttendanceRecord)
    (student_name subject period : String) (today : Int) : Nat :=
  (records.filter (fun r => r.student_name == student_name &&
    r.subject == subject && r.period == period &&
    dateOf r.timestamp == today)).length

/-- The terminal outcomes of a redemption submission, one per distinct
user-facing message of `student_app`. -/
inductive Outcome where
  | invalidCode
  | missingDetails
  | alreadyMarked
  | outOfRange (distance : ℝ)
  | accepted (distance : ℝ)

/-- Observable result of one submission: whether the expiry warning of
lines 1133-1137 was displayed, the terminal outcome, and the attendance
table afterwards. -/
structure RedeemResult where
  expiredWarning : Bool
  outcome : Outcome
  records : List AttendanceRecord

/-- The row inserted by the commit (src/main.py lines 1198-1210): all
token-derived columns are copied from the decoded payload `qr_data`. -/
def newRecord (student_name student_roll : String) (qr_data : QRPayload)
    (now : Int) (device_id : String) (student_lat student_lon : ℝ) :
    AttendanceRecord :=
  { student_name := pyStrip student_name, student_roll := pyStrip student_roll,
    subject := qr_data.subject, period := qr_data.period, timestamp := now,
    device_id := device_id, student_latitude := student_lat,
    student_longitude := student_lon, qr_latitude := qr_data.latitude,
    qr_longitude := qr_data.longitude, status := "present",
    marked_by := "student_app", modified_by := none,
    modification_reason := none }

/-- The submission flow of `student_app` after a payload was decoded
(src/main.py lines 1131-1236), with the check-then-act structure made
explicit: `snapshot` is the attendance table when the duplicate SELECT
runs and `current` the table when the INSERT runs.  A single synchronous
request has `snapshot = current`.  Steps, in source order: expiry is
compared only for the warning display (lines 1133-1137); the store
lookup gates on existence-and-active only by truthiness of the fetched
row (lines 1146-1152); empty name/roll aborts (line 1171); a positive
duplicate count aborts (lines 1172-1183); the haversine distance from
the payload coordinates decide with an inclusive 1000 m bound (lines
1186-1233); the commit appends a `present` row. -/
noncomputable def student_app_submitRaced (store : List QRRow)
    (snapshot current : List AttendanceRecord) (qr_data : QRPayload)
    (student_name student_roll : String) (student_lat student_lon : ℝ)
    (device_id : String) (now : Int) : RedeemResult :=
  let expiredWarning := decide (qr_data.expires_at < now)
  match isActive store qr_data.qr_id with
  | none => ⟨expiredWarning, .invalidCode, current⟩
  | some _ =>
    if pyStrip student_name == "" || pyStrip student_roll == "" then
      ⟨expiredWarning, .missingDetails, current⟩
    else if 0 < dupCount snapshot (pyStrip student_name) qr_data.subject
        qr_data.period (dateOf now) then
      ⟨expiredWarning, .alreadyMarked, current⟩
    else
      let distance := calculate_distance qr_data.latitude qr_data.longitude
        student_lat student_lon
      if distance ≤ 1000 then
        ⟨expiredWarning, .accepted distance, current ++
          [newRecord student_name student_roll qr_data now device_id
            student_lat student_lon]⟩
      else
        ⟨expiredWarning, .outOfRange distance, current⟩

/-- One synchronous redemption submission: the duplicate check and the
insert see the same table state. -/
noncomputable def student_app_submit (store : List QRRow)
    (records : List AttendanceRecord) (qr_data : QRPayload)
    (student_name student_roll : String) (student_lat student_lon : ℝ)
    (device_id : String) (now : Int) : RedeemResult :=
  student_app_submitRaced store records records qr_data student_name
    student_roll student_lat student_lon device_id now

/-- The administrative status edit (src/main.py lines 983-993):
`UPDATE attendance SET status = ?, modified_by = ?, modification_reason
= ? WHERE id = ?`, the row id abstracted as the list position.  It
updates in place and never inserts or deletes a row. -/
def updateStatus : List AttendanceRecord → Nat → String → String → String →
    List AttendanceRecord
  | [], _, _, _, _ => []
  | r :: rest, 0, new_status, faculty_id, reason =>
    { r with
      status := new_status,
      modified_by := some faculty_id,
      modification_reason := some reason } :: rest
  | r :: rest, idx + 1, new_status, faculty_id, reason =>
    r :: updateStatus rest idx new_status faculty_id reason

/-! ## Concrete sample data for witnesses and counterexamples -/

/-- A stored, active, unexpired token. -/
def sampleRow : QRRow := ⟨"t1", "Math", "P1", 0, 0, 0, 200, "F1", true⟩

/-- The payload carried by the QR code of `sampleRow`. -/
def samplePayload : QRPayload := ⟨"t1", "Math", "P1", 0, 0, 0, 200⟩

/-- A stored row for the same token id as `sampleRow` whose subject,
period, coordinates and expiry all differ from the payload fields. -/
def divergentRow : QRRow := ⟨"t1", "Physics", "P2", 45, 90, 7, 9999, "F2", true⟩

/-- A stored, active token that is already past its expiry. -/
def expiredRow : QRRow := ⟨"t2", "Math", "P1", 0, 0, 0, 10, "F1", true⟩

/-- The payload carried by the QR code of `expiredRow`. -/
def expiredPayload : QRPayload := ⟨"t2", "Math", "P1", 0, 0, 0, 10⟩

/-- A stored token that was administratively deactivated. -/
def inactiveRow : QRRow := ⟨"t3", "Math", "P1", 0, 0, 0, 200, "F1", false⟩

/-- The payload carried by the QR code of `inactiveRow`. -/
def inactivePayload : QRPayload := ⟨"t3", "Math", "P1", 0, 0, 0, 200⟩

/-- An attendance row as created by a successful redemption of
`sampleRow` by Alice on day 0. -/
def sampleRecord : AttendanceRecord :=
  ⟨"Alice", "7", "Math", "P1", 0, "d0", 0, 0, 0, 0, "present", "student_app",
    none, none⟩

/-! ## GeoMath lemmas -/

lemma atan2_sqrt_eq_arcsin_sqrt (a : ℝ) :
    atan2 (Real.sqrt a) (Real.sqrt (1 - a)) = Real.arcsin (Real.sqrt a) := by
  rcases le_or_lt a 0 with ha | ha
  · have hs : Real.sqrt a = 0 := Real.sqrt_eq_zero'.mpr ha
    have hx : 0 < Real.sqrt (1 - a) := Real.sqrt_pos.mpr (by linarith)
    rw [hs, atan2, if_pos hx]
    simp
  · rcases lt_or_le a 1 with ha1 | ha1
    · have hx : 0 < Real.sqrt (1 - a) := Real.sqrt_pos.mpr (by linarith)
      rw [atan2, if_pos hx]
      have hmem : Real.sqrt a ∈ Set.Ioo (-(1 : ℝ)) 1 := by
        constructor
        · have := Real.sqrt_nonneg a
          linarith
        · exact (Real.sqrt_lt' one_pos).mpr (by linarith)
      rw [Real.arcsin_eq_arctan hmem, Real.sq_sqrt ha.le]
    · have hx : Real.sqrt (1 - a) = 0 := Real.sqrt_eq_zero'.mpr (by linarith)
      have hy : 0 < Real.sqrt a := Real.sqrt_pos.mpr (by linarith)
      rw [hx, atan2, if_neg (lt_irrefl 0), if_neg (lt_irrefl 0), if_pos hy]
      have hy1 : (1 : ℝ) ≤ Real.sqrt a := by
        by_contra hlt
        push_neg at hlt
        have := (Real.sqrt_lt' one_pos).mp hlt
        nlinarith
      rw [Real.arcsin_of_one_le hy1]

lemma calculate_distance_eq_term (lat1 lon1 lat2 lon2 : ℝ) :
    calculate_distance lat1 lon1 lat2 lon2 =
      6371000 * (2 * atan2 (Real.sqrt (haversineTerm lat1 lon1 lat2 lon2))
        (Real.sqrt (1 - haversineTerm lat1 lon1 lat2 lon2))) := rfl

lemma haversineTerm_comm (lat1 lon1 lat2 lon2 : ℝ) :
    haversineTerm lat1 lon1 lat2 lon2 = haversineTerm lat2 lon2 lat1 lon1 := by
  unfold haversineTerm radians
  have h1 : (lat1 - lat2) * Real.pi / 180 = -((lat2 - lat1) * Real.pi / 180) := by ring
  have h2 : (lon1 - lon2) * Real.pi / 180 = -((lon2 - lon1) * Real.pi / 180) := by ring
  rw [h1, h2]
  rw [neg_div, Real.sin_neg, neg_div, Real.sin_neg]
  ring

lemma haversineTerm_self (lat lon : ℝ) : haversineTerm lat lon lat lon = 0 := by
  unfold haversineTerm radians
  simp

lemma calculate_distance_self (lat lon : ℝ) :
    calculate_distance lat lon lat lon = 0 := by
  rw [calculate_distance_eq_term, haversineTerm_self]
  rw [Real.sqrt_zero]
  have h1 : (1 : ℝ) - 0 = 1 := by ring
  rw [h1, Real.sqrt_one, atan2, if_pos one_pos]
  simp

lemma calculate_distance_comm (lat1 lon1 lat2 lon2 : ℝ) :
    calculate_distance lat1 lon1 lat2 lon2 = calculate_distance lat2 lon2 lat1 lon1 := by
  rw [calculate_distance_eq_term, calculate_distance_eq_term, haversineTerm_comm]

/-! ## Unfolding lemmas for the submission flow -/

lemma submitRaced_lookup_none (store : List QRRow)
    (snap cur : List AttendanceRecord) (qr_data : QRPayload)
    (name roll : String) (slat slon : ℝ) (dev : String) (now : Int)
    (h : isActive store qr_data.qr_id = none) :
    student_app_submitRaced store snap cur qr_data name roll slat slon dev now =
      ⟨decide (qr_data.expires_at < now), .invalidCode, cur⟩ := by
  unfold student_app_submitRaced
  rw [h]

lemma submitRaced_already_marked (store : List QRRow)
    (snap cur : List AttendanceRecord) (qr_data : QRPayload)
    (name roll : String) (slat slon : ℝ) (dev : String) (now : Int)
    (r : QRRow) (hlook : isActive store qr_data.qr_id = some r)
    (hname : pyStrip name ≠ "") (hroll : pyStrip roll ≠ "")
    (hdup : 0 < dupCount snap (pyStrip name) qr_data.subject qr_data.period (dateOf now)) :
    student_app_submitRaced store snap cur qr_data name roll slat slon dev now =
      ⟨decide (qr_data.expires_at < now), .alreadyMarked, cur⟩ := by
  unfold student_app_submitRaced
  rw [hlook]
  simp only [beq_iff_eq, hname, hroll, Bool.or_eq_true, or_self, if_false, hdup, if_true]

lemma submitRaced_reaches_distance (store : List QRRow)
    (snap cur : List AttendanceRecord) (qr_data : QRPayload)
    (name roll : String) (slat slon : ℝ) (dev : String) (now : Int)
    (r : QRRow) (hlook : isActive store qr_data.qr_id = some r)
    (hname : pyStrip name ≠ "") (hroll : pyStrip roll ≠ "")
    (hdup : dupCount snap (pyStrip name) qr_data.subject qr_data.period (dateOf now) = 0) :
    student_app_submitRaced store snap cur qr_data name roll slat slon dev now =
      if calculate_distance qr_data.latitude qr_data.longitude slat slon ≤ 1000 then
        ⟨decide (qr_data.expires_at < now),
          .accepted (calculate_distance qr_data.latitude qr_data.longitude slat slon),
          cur ++ [newRecord name roll qr_data now dev slat slon]⟩
      else
        ⟨decide (qr_data.expires_at < now),
          .outOfRange (calculate_distance qr_data.latitude qr_data.longitude slat slon),
          cur⟩ := by
  unfold student_app_submitRaced
  rw [hlook, hdup]
  simp [hname, hroll]

lemma updateStatus_length (records : List AttendanceRecord) (idx : Nat)
    (ns fid rsn : String) :
    (updateStatus records idx ns fid rsn).length = records.length := by
  induction records generalizing idx with
  | nil => rfl
  | cons r rest ih =>
    cases idx with
    | zero => rfl
    | succ k => simp [updateStatus, ih]

lemma dupCount_updateStatus (records : List AttendanceRecord) (idx : Nat)
    (ns fid rsn n s p : String) (t : Int) :
    dupCount (updateStatus records idx ns fid rsn) n s p t =
      dupCount records n s p t := by
  induction records generalizing idx with
  | nil => rfl
  | cons r rest ih =>
    cases idx with
    | zero =>
      unfold dupCount
      simp only [updateStatus, List.filter_cons]
      split <;> simp
    | succ k =>
      have hk := ih k
      unfold dupCount at hk ⊢
      simp only [updateStatus, List.filter_cons]
      by_cases hp : (r.student_name == n && r.subject == s && r.period == p &&
          (dateOf r.timestamp == t)) = true
      · simp [hp, hk]
      · simp only [Bool.not_eq_true] at hp
        simp [hp, hk]

lemma isActive_skip_inactive (s1 s2 : List QRRow) (r : QRRow)
    (h : r.is_active = false) (id : String) :
    isActive (s1 ++ r :: s2) id = isActive (s1 ++ s2) id := by
  unfold isActive
  rw [List.find?_append, List.find?_append, List.find?_cons_of_neg]
  simp [h]

lemma haversineSpec_eq_term (lat1 lon1 lat2 lon2 : ℝ) :
    haversineSpec lat1 lon1 lat2 lon2 =
      2 * 6371000 * Real.arcsin (Real.sqrt (haversineTerm lat1 lon1 lat2 lon2)) := rfl

/-! ## Claims -/

/-- C8: `calculate_distance` computes, for every pair of degree
coordinates, exactly the great-circle distance given by the haversine
formula with Earth radius 6,371,000 m after degree-to-radian conversion;
it is total, with no error conditions. -/
theorem calculate_distance_is_haversine (lat1 lon1 lat2 lon2 : ℝ) :
    calculate_distance lat1 lon1 lat2 lon2 = haversineSpec lat1 lon1 lat2 lon2 := by
  rw [calculate_distance_eq_term, haversineSpec_eq_term, atan2_sqrt_eq_arcsin_sqrt]
  ring

/-- C9: the distance is symmetric in its two points, and the distance
from a point to itself is zero. -/
theorem calculate_distance_symm_self (lat1 lon1 lat2 lon2 : ℝ) :
    calculate_distance lat1 lon1 lat2 lon2 = calculate_distance lat2 lon2 lat1 lon1 ∧
    calculate_distance lat1 lon1 lat1 lon1 = 0 :=
  ⟨calculate_distance_comm lat1 lon1 lat2 lon2, calculate_distance_self lat1 lon1⟩

/-- C4: decoding the encoded payload restores every token field
exactly. -/
theorem decode_encode_roundtrip (t : QRPayload) :
    decodePayload (encodePayload t) = some t := rfl

/-- C5 counterexample: a detected, valid-JSON payload that misses the
required fields `subject`, `period`, `latitude`, `longitude`,
`created_at` and `expires_at` is returned as-is by `read_qr_code`, not
turned into `none`, even though field extraction fails on it. -/
theorem read_qr_code_missing_fields_not_none :
    read_qr_code ⟨false, true, true, some (.jobj [("qr_id", .jstr "t1")])⟩ =
      some (.jobj [("qr_id", .jstr "t1")]) ∧
    decodePayload (.jobj [("qr_id", .jstr "t1")]) = none :=
  ⟨rfl, rfl⟩

/-- C5 amended: `read_qr_code` returns `none` exactly when no barcode is
found, the decoded data is empty, the payload is not valid JSON, or an
exception escaped the decoder; otherwise it returns the parsed payload
unchanged, without checking the presence of the token fields. -/
theorem read_qr_code_none_iff (o : DetectorOutput) :
    (read_qr_code o = none ↔
      o.threw = true ∨ o.vertices = false ∨ o.dataNonempty = false ∨
        o.parsed = none) ∧
    (o.threw = false → o.vertices = true → o.dataNonempty = true →
      read_qr_code o = o.parsed) := by
  obtain ⟨thr, v, d, p⟩ := o
  cases thr <;> cases v <;> cases d <;> cases p <;> simp [read_qr_code]

/-- C5 amended witness at a concrete detector output. -/
theorem read_qr_code_none_iff_witness :
    read_qr_code ⟨false, true, true, some (.jobj [])⟩ = some (.jobj []) :=
  (read_qr_code_none_iff ⟨false, true, true, some (.jobj [])⟩).2 rfl rfl rfl

/-- C6: the liveness query returns a token exactly when a row with that
id exists and is active; the returned row has that id and is active; an
inactive row is observably identical to an absent one (removing it from
the store changes no submission), and a failed lookup terminates the
submission with the invalid-code outcome and no write. -/
theorem isActive_iff_active_exists (store : List QRRow) (id : String) :
    ((isActive store id).isSome ↔
      ∃ r ∈ store, r.qr_id = id ∧ r.is_active = true) ∧
    (∀ r, isActive store id = some r → r.qr_id = id ∧ r.is_active = true) ∧
    (∀ (s1 s2 : List QRRow) (r : QRRow), r.is_active = false →
      ∀ records qr_data name roll slat slon dev now,
        student_app_submit (s1 ++ r :: s2) records qr_data name roll slat slon dev now =
          student_app_submit (s1 ++ s2) records qr_data name roll slat slon dev now) ∧
    (∀ records qr_data name roll slat slon dev now,
      isActive store qr_data.qr_id = none →
      student_app_submit store records qr_data name roll slat slon dev now =
        ⟨decide (qr_data.expires_at < now), .invalidCode, records⟩) := by
  refine ⟨?_, ?_, ?_, ?_⟩
  · unfold isActive
    rw [List.find?_isSome]
    simp [Bool.and_eq_true, beq_iff_eq]
  · intro r h
    have hp := List.find?_some h
    simpa [Bool.and_eq_true, beq_iff_eq] using hp
  · intro s1 s2 r hr records qr_data name roll slat slon dev now
    unfold student_app_submit student_app_submitRaced
    rw [isActive_skip_inactive s1 s2 r hr]
  · intro records qr_data name roll slat slon dev now h
    exact submitRaced_lookup_none store records records qr_data name roll slat slon dev now h

/-- C6 witness: a deactivated stored token behaves like an absent one,
and the submission against it reports the invalid-code outcome. -/
theorem isActive_iff_active_exists_witness :
    inactiveRow.is_active = false ∧
    student_app_submit [inactiveRow] [] inactivePayload "Alice" "7" 0 0 "dev" 5 =
      student_app_submit [] [] inactivePayload "Alice" "7" 0 0 "dev" 5 ∧
    isActive [inactiveRow] inactivePayload.qr_id = none ∧
    student_app_submit [inactiveRow] [] inactivePayload "Alice" "7" 0 0 "dev" 5 =
      ⟨decide (inactivePayload.expires_at < 5), .invalidCode, []⟩ :=
  ⟨rfl,
    (isActive_iff_active_exists [inactiveRow] "t3").2.2.1 [] [] inactiveRow rfl
      [] inactivePayload "Alice" "7" 0 0 "dev" 5,
    rfl,
    (isActive_iff_active_exists [inactiveRow] "t3").2.2.2
      [] inactivePayload "Alice" "7" 0 0 "dev" 5 rfl⟩

/-- C2: when a record with the same (claimant, subject, period, calendar
date) already exists in the attendance table, the submission terminates
with `AlreadyMarked` and the table is unchanged; administrative status
edits never add or remove a row and never change the duplicate-check
count, so they are exempt from the constraint (every inserted row is
redemption-origin, `marked_by = student_app`). -/
theorem duplicate_yields_alreadyMarked
    (store : List QRRow) (records : List AttendanceRecord) (qr_data : QRPayload)
    (name roll : String) (slat slon : ℝ) (dev : String) (now : Int) (r : QRRow)
    (hlook : isActive store qr_data.qr_id = some r)
    (hname : pyStrip name ≠ "") (hroll : pyStrip roll ≠ "")
    (hdup : 0 < dupCount records (pyStrip name) qr_data.subject qr_data.period
      (dateOf now)) :
    student_app_submit store records qr_data name roll slat slon dev now =
      ⟨decide (qr_data.expires_at < now), .alreadyMarked, records⟩ ∧
    (newRecord name roll qr_data now dev slat slon).marked_by = "student_app" ∧
    ∀ idx ns fid rsn,
      (updateStatus records idx ns fid rsn).length = records.length ∧
      dupCount (updateStatus records idx ns fid rsn) (pyStrip name)
          qr_data.subject qr_data.period (dateOf now) =
        dupCount records (pyStrip name) qr_data.subject qr_data.period (dateOf now) :=
  ⟨submitRaced_already_marked store records records qr_data name roll slat slon
      dev now r hlook hname hroll hdup, rfl,
    fun idx ns fid rsn =>
      ⟨updateStatus_length records idx ns fid rsn,
        dupCount_updateStatus records idx ns fid rsn (pyStrip name)
          qr_data.subject qr_data.period (dateOf now)⟩⟩

/-- C2 witness: a second submission by the same claimant for the same
subject, period and day is reported `AlreadyMarked` and writes no row. -/
theorem duplicate_yields_alreadyMarked_witness :
    isActive [sampleRow] samplePayload.qr_id = some sampleRow ∧
    pyStrip "Alice" ≠ "" ∧ pyStrip "7" ≠ "" ∧
    0 < dupCount [sampleRecord] (pyStrip "Alice") samplePayload.subject
      samplePayload.period (dateOf 5) ∧
    student_app_submit [sampleRow] [sampleRecord] samplePayload "Alice" "7" 0 0 "d1" 5 =
      ⟨decide (samplePayload.expires_at < 5), .alreadyMarked, [sampleRecord]⟩ :=
  ⟨rfl, by decide, by decide, by decide,
    (duplicate_yields_alreadyMarked [sampleRow] [sampleRecord] samplePayload
      "Alice" "7" 0 0 "d1" 5 sampleRow rfl (by decide) (by decide) (by decide)).1⟩

/-- C3: once a submission reaches the distance check, the decision is an
inclusive comparison of the computed haversine distance with 1000 m: any
distance at most 1000 (the boundary included) is accepted and the record
written, any distance strictly above 1000 terminates with `OutOfRange`
and no write; in both cases the computed distance is carried in the
outcome shown to the claimant. -/
theorem distance_boundary_inclusive
    (store : List QRRow) (records : List AttendanceRecord) (qr_data : QRPayload)
    (name roll : String) (slat slon : ℝ) (dev : String) (now : Int) (r : QRRow)
    (hlook : isActive store qr_data.qr_id = some r)
    (hname : pyStrip name ≠ "") (hroll : pyStrip roll ≠ "")
    (hdup : dupCount records (pyStrip name) qr_data.subject qr_data.period
      (dateOf now) = 0) :
    (calculate_distance qr_data.latitude qr_data.longitude slat slon ≤ 1000 →
      student_app_submit store records qr_data name roll slat slon dev now =
        ⟨decide (qr_data.expires_at < now),
          .accepted (calculate_distance qr_data.latitude qr_data.longitude slat slon),
          records ++ [newRecord name roll qr_data now dev slat slon]⟩) ∧
    (1000 < calculate_distance qr_data.latitude qr_data.longitude slat slon →
      student_app_submit store records qr_data name roll slat slon dev now =
        ⟨decide (qr_data.expires_at < now),
          .outOfRange (calculate_distance qr_data.latitude qr_data.longitude slat slon),
          records⟩) := by
  constructor
  · intro hd
    unfold student_app_submit
    rw [submitRaced_reaches_distance store records records qr_data name roll
      slat slon dev now r hlook hname hroll hdup, if_pos hd]
  · intro hd
    unfold student_app_submit
    rw [submitRaced_reaches_distance store records records qr_data name roll
      slat slon dev now r hlook hname hroll hdup, if_neg (not_le.mpr hd)]

/-- C3 witness: a claimant at the anchor itself (distance 0 ≤ 1000) is
accepted and the row is appended. -/
theorem distance_boundary_inclusive_witness :
    isActive [sampleRow] samplePayload.qr_id = some sampleRow ∧
    pyStrip "Alice" ≠ "" ∧ pyStrip "7" ≠ "" ∧
    dupCount [] (pyStrip "Alice") samplePayload.subject samplePayload.period
      (dateOf 5) = 0 ∧
    calculate_distance samplePayload.latitude samplePayload.longitude 0 0 ≤ 1000 ∧
    student_app_submit [sampleRow] [] samplePayload "Alice" "7" 0 0 "dev" 5 =
      ⟨decide (samplePayload.expires_at < 5),
        .accepted (calculate_distance samplePayload.latitude samplePayload.longitude 0 0),
        [] ++ [newRecord "Alice" "7" samplePayload 5 "dev" 0 0]⟩ := by
  have hz : calculate_distance samplePayload.latitude samplePayload.longitude 0 0 = 0 :=
    calculate_distance_self 0 0
  have hd : calculate_distance samplePayload.latitude samplePayload.longitude 0 0 ≤ 1000 := by
    rw [hz]
    norm_num
  exact ⟨rfl, by decide, by decide, rfl, hd,
    (distance_boundary_inclusive [sampleRow] [] samplePayload "Alice" "7" 0 0 "dev" 5
      sampleRow rfl (by decide) (by decide) rfl).1 hd⟩

/-- C1 (code refutation): a token that is past its `expires_at` but still
`is_active` in the store does not terminate with an expired outcome: the
expiry comparison only sets the displayed warning, and a fresh in-range
claimant is accepted with a row written. -/
theorem expired_token_still_accepted :
    student_app_submit [expiredRow] [] expiredPayload "Alice" "7" 0 0 "dev" 100 =
      ⟨true, .accepted 0, [newRecord "Alice" "7" expiredPayload 100 "dev" 0 0]⟩ := by
  unfold student_app_submit
  rw [submitRaced_reaches_distance [expiredRow] [] [] expiredPayload "Alice" "7"
    0 0 "dev" 100 expiredRow rfl (by decide) (by decide) rfl]
  have hz : calculate_distance expiredPayload.latitude expiredPayload.longitude 0 0 = 0 :=
    calculate_distance_self 0 0
  rw [hz, if_pos (by norm_num : (0 : ℝ) ≤ 1000)]
  norm_num [expiredPayload]

/-- C10: the redemption decision and the written record depend only on
the decoded payload and the claimant inputs: two stores that both
answer the liveness query positively for the payload token id produce
identical results, however their stored rows differ in subject, period,
coordinates or expiry. -/
theorem outcome_independent_of_stored_row
    (s1 s2 : List QRRow) (records : List AttendanceRecord) (qr_data : QRPayload)
    (name roll : String) (slat slon : ℝ) (dev : String) (now : Int)
    (h1 : (isActive s1 qr_data.qr_id).isSome = true)
    (h2 : (isActive s2 qr_data.qr_id).isSome = true) :
    student_app_submit s1 records qr_data name roll slat slon dev now =
      student_app_submit s2 records qr_data name roll slat slon dev now := by
  obtain ⟨r1, hr1⟩ := Option.isSome_iff_exists.mp h1
  obtain ⟨r2, hr2⟩ := Option.isSome_iff_exists.mp h2
  unfold student_app_submit student_app_submitRaced
  rw [hr1, hr2]

/-- C10 witness: two stores whose rows for the same token id disagree in
subject, period, anchor coordinates and expiry give identical
submissions. -/
theorem outcome_independent_of_stored_row_witness :
    (isActive [sampleRow] samplePayload.qr_id).isSome = true ∧
    (isActive [divergentRow] samplePayload.qr_id).isSome = true ∧
    student_app_submit [sampleRow] [] samplePayload "Alice" "7" 0 0 "dev" 5 =
      student_app_submit [divergentRow] [] samplePayload "Alice" "7" 0 0 "dev" 5 :=
  ⟨rfl, rfl,
    outcome_independent_of_stored_row [sampleRow] [divergentRow] [] samplePayload
      "Alice" "7" 0 0 "dev" 5 rfl rfl⟩

/-- C7 counterexample: the attendance table has no uniqueness constraint
on (claimant, subject, period, date), so in the check-check-commit-commit
interleaving both concurrent submissions pass the duplicate pre-check
against the same snapshot, both are `Accepted`, and two rows with the
same key are committed. -/
theorem race_two_accepted_concrete :
    (student_app_submitRaced [sampleRow] [] [] samplePayload "Alice" "7" 0 0 "d1" 5).outcome =
      .accepted 0 ∧
    (student_app_submitRaced [sampleRow] []
        (student_app_submitRaced [sampleRow] [] [] samplePayload "Alice" "7" 0 0 "d1" 5).records
        samplePayload "Alice" "7" 0 0 "d2" 5).outcome = .accepted 0 ∧
    (student_app_submitRaced [sampleRow] []
        (student_app_submitRaced [sampleRow] [] [] samplePayload "Alice" "7" 0 0 "d1" 5).records
        samplePayload "Alice" "7" 0 0 "d2" 5).records =
      [newRecord "Alice" "7" samplePayload 5 "d1" 0 0,
        newRecord "Alice" "7" samplePayload 5 "d2" 0 0] := by
  have hz : calculate_distance samplePayload.latitude samplePayload.longitude 0 0 = 0 :=
    calculate_distance_self 0 0
  have h1 := submitRaced_reaches_distance [sampleRow] [] [] samplePayload
    "Alice" "7" 0 0 "d1" 5 sampleRow rfl (by decide) (by decide) rfl
  rw [hz, if_pos (by norm_num : (0 : ℝ) ≤ 1000)] at h1
  have h2 := submitRaced_reaches_distance [sampleRow] []
    ([] ++ [newRecord "Alice" "7" samplePayload 5 "d1" 0 0]) samplePayload
    "Alice" "7" 0 0 "d2" 5 sampleRow rfl (by decide) (by decide) rfl
  rw [hz, if_pos (by norm_num : (0 : ℝ) ≤ 1000)] at h2
  rw [h1]
  dsimp only
  rw [h2]
  refine ⟨rfl, rfl, by simp⟩

/-- C7 amended: the store enforces no uniqueness on (claimant, subject,
period, date) — an insert never fails — so when two submissions run
their duplicate pre-checks against the same snapshot before either
commit, both are `Accepted` and both rows are committed; duplicate
suppression rests solely on the pre-check. -/
theorem race_two_accepted
    (store : List QRRow) (records : List AttendanceRecord) (qr_data : QRPayload)
    (name roll : String) (slat slon : ℝ) (dev1 dev2 : String) (now : Int) (r : QRRow)
    (hlook : isActive store qr_data.qr_id = some r)
    (hname : pyStrip name ≠ "") (hroll : pyStrip roll ≠ "")
    (hdup : dupCount records (pyStrip name) qr_data.subject qr_data.period
      (dateOf now) = 0)
    (hd : calculate_distance qr_data.latitude qr_data.longitude slat slon ≤ 1000) :
    (student_app_submitRaced store records records qr_data name roll slat slon dev1 now).outcome =
      .accepted (calculate_distance qr_data.latitude qr_data.longitude slat slon) ∧
    (student_app_submitRaced store records
        (student_app_submitRaced store records records qr_data name roll slat slon dev1 now).records
        qr_data name roll slat slon dev2 now).outcome =
      .accepted (calculate_distance qr_data.latitude qr_data.longitude slat slon) ∧
    (student_app_submitRaced store records
        (student_app_submitRaced store records records qr_data name roll slat slon dev1 now).records
        qr_data name roll slat slon dev2 now).records =
      records ++ [newRecord name roll qr_data now dev1 slat slon,
        newRecord name roll qr_data now dev2 slat slon] := by
  have h1 := submitRaced_reaches_distance store records records qr_data name
    roll slat slon dev1 now r hlook hname hroll hdup
  rw [if_pos hd] at h1
  have h2 := submitRaced_reaches_distance store records
    (records ++ [newRecord name roll qr_data now dev1 slat slon]) qr_data name
    roll slat slon dev2 now r hlook hname hroll hdup
  rw [if_pos hd] at h2
  rw [h1]
  dsimp only
  rw [h2]
  refine ⟨rfl, rfl, by simp⟩

/-- C7 amended witness: the interleaved double redemption at the anchor,
instantiated concretely. -/
theorem race_two_accepted_witness :
    isActive [sampleRow] samplePayload.qr_id = some sampleRow ∧
    pyStrip "Alice" ≠ "" ∧ pyStrip "7" ≠ "" ∧
    dupCount [] (pyStrip "Alice") samplePayload.subject samplePayload.period
      (dateOf 5) = 0 ∧
    calculate_distance samplePayload.latitude samplePayload.longitude 0 0 ≤ 1000 ∧
    (student_app_submitRaced [sampleRow] []
        (student_app_submitRaced [sampleRow] [] [] samplePayload "Alice" "7" 0 0 "dA" 5).records
        samplePayload "Alice" "7" 0 0 "dB" 5).outcome =
      .accepted (calculate_distance samplePayload.latitude samplePayload.longitude 0 0) := by
  have hz : calculate_distance samplePayload.latitude samplePayload.longitude 0 0 = 0 :=
    calculate_distance_self 0 0
  have hd : calculate_distance samplePayload.latitude samplePayload.longitude 0 0 ≤ 1000 := by
    rw [hz]
    norm_num
  exact ⟨rfl, by decide, by decide, rfl, hd,
    (race_two_accepted [sampleRow] [] samplePayload "Alice" "7" 0 0 "dA" "dB" 5
      sampleRow rfl (by decide) (by decide) rfl hd).2.1⟩

end SmartAttendance
